import Mathlib

/-!
Verification of the signup API test-automation core: the payload factory
(`data_factory.py`), the two `SignupClient` copies (`api_objects.py` and
`apiObjects/api_objects.py`), and the response-schema validator
(`schemas.py`).  Python dicts are modelled as insertion-ordered association
lists, optional keyword arguments as `Option String`, random generators
(Faker names, `random.choice` draws, clock readings) as explicit parameters,
and the HTTP client as a stream of response statuses indexed by call number.
-/

namespace SignupApi

/-- Python dict lookup `d[k]` / `d.get(k)` over an insertion-ordered
association list: the first binding of the key wins. -/
def dictGet {α : Type} : List (String × α) → String → Option α
  | [], _ => none
  | (k, v) :: rest, f => if k = f then some v else dictGet rest f

/-- Python dict assignment `d[k] = v`: replaces the value of an existing key
in place, otherwise appends the new key at the end (insertion order). -/
def dictSet {α : Type} : List (String × α) → String → α → List (String × α)
  | [], k, v => [(k, v)]
  | (k', v') :: rest, k, v =>
      if k' = k then (k, v) :: rest else (k', v') :: dictSet rest k v

/-- Python `x or y` applied to an optional string argument: both `None` and
the empty string are falsy and fall through to the default. -/
def orDefault : Option String → String → String
  | none, y => y
  | some x, y => if x = "" then y else x

lemma strData_append (s t : String) : (s ++ t).data = s.data ++ t.data := by
  cases s; cases t; rfl

lemma dictGet_dictSet_self {α : Type} (l : List (String × α)) (k : String) (v : α) :
    dictGet (dictSet l k v) k = some v := by
  induction l with
  | nil => simp [dictGet, dictSet]
  | cons hd tl ih =>
      obtain ⟨k', v'⟩ := hd
      by_cases h : k' = k
      · simp [dictGet, dictSet, h]
      · simp [dictGet, dictSet, h, ih]

lemma dictGet_dictSet_ne {α : Type} (l : List (String × α)) (k g : String) (v : α)
    (h : g ≠ k) : dictGet (dictSet l k v) g = dictGet l g := by
  have hkg : ¬ k = g := fun hkg => h hkg.symm
  induction l with
  | nil => simp [dictGet, dictSet, hkg]
  | cons hd tl ih =>
      obtain ⟨k', v'⟩ := hd
      by_cases hk : k' = k
      · subst hk
        simp [dictGet, dictSet, hkg]
      · simp [dictGet, dictSet, hk, ih]

namespace UserDataFactory

/-- Embedding of `UserDataFactory.generate_unique_email` from
`data_factory.py`: the millisecond clock reading `int(time.time() * 1000)`
is passed in explicitly. -/
def generate_unique_email (pfx : String) (domain : String) (timestampMs : Nat) : String :=
  pfx ++ "_" ++ toString timestampMs ++ "@" ++ domain

/-- Embedding of `UserDataFactory.create_signup_payload`.  The Faker-backed
generators `random_name()` and `random_password()` are abstracted as the
parameters `genName` and `genPassword`; the clock reading feeding
`generate_unique_email()` is `timestampMs`.  Keyword arguments default to
`None`, and `x or default` is `orDefault`; `payload.update(kwargs)` is a
left fold of dict assignments. -/
def create_signup_payload (genName genPassword : String) (timestampMs : Nat)
    (name email password confirm_password : Option String)
    (kwargs : List (String × String)) : List (String × String) :=
  let generated_password := orDefault password genPassword
  let payload : List (String × String) :=
    [("name", orDefault name genName),
     ("email", orDefault email (generate_unique_email "test" "example.com" timestampMs)),
     ("password", generated_password),
     ("confirm_password", orDefault confirm_password generated_password)]
  kwargs.foldl (fun acc kv => dictSet acc kv.1 kv.2) payload

/-- Embedding of the `invalid_values` table of
`UserDataFactory.create_invalid_payload` together with its
`.get(field_to_invalidate, "")` fallback. -/
def invalidDefaults (f : String) : String :=
  if f = "email" then "invalid-email-format"
  else if f = "name" then "User@123!"
  else if f = "password" then "weak"
  else if f = "confirm_password" then "mismatch_password"
  else ""

/-- Embedding of `UserDataFactory.create_invalid_payload`: build a fresh
valid payload, then overwrite the requested field, with the caller-supplied
value when `invalid_value is not None` and with the canonical bad value
otherwise. -/
def create_invalid_payload (genName genPassword : String) (timestampMs : Nat)
    (field_to_invalidate : String) (invalid_value : Option String) :
    List (String × String) :=
  let payload := create_signup_payload genName genPassword timestampMs none none none none []
  match invalid_value with
  | some v => dictSet payload field_to_invalidate v
  | none => dictSet payload field_to_invalidate (invalidDefaults field_to_invalidate)

/-- Alphabet `string.ascii_uppercase`. -/
def asciiUppercase : List Char := "ABCDEFGHIJKLMNOPQRSTUVWXYZ".data

/-- Alphabet `string.ascii_lowercase`. -/
def asciiLowercase : List Char := "abcdefghijklmnopqrstuvwxyz".data

/-- Alphabet `string.digits`. -/
def asciiDigits : List Char := "0123456789".data

/-- Fixed special-character set of `random_password`. -/
def passwordSpecials : List Char := "!@#$%^&*".data

/-- Embedding of `UserDataFactory.random_password`.  Every `random.choice`
draw is a parameter: the four mandatory complexity characters, a stream
`fillChoice` for the remaining draws, and `random.shuffle` as a function on
lists (constrained to a permutation in the theorems). -/
def random_password (length : Nat) (include_special : Bool)
    (upperChoice lowerChoice digitChoice specialChoice : Char)
    (fillChoice : Nat → Char) (shuffle : List Char → List Char) : String :=
  let password : List Char :=
    [upperChoice, lowerChoice, digitChoice] ++
      (if include_special then [specialChoice] else [])
  let remaining_length := length - password.length
  let filled := password ++ (List.range remaining_length).map fillChoice
  ⟨shuffle filled⟩

end UserDataFactory

namespace ApiObjectsRoot

/-- Embedding of `SignupClient.generate_unique_email` from the top-level
`api_objects.py` (fixed domain `example.com`). -/
def generate_unique_email (pfx : String) (timestampMs : Nat) : String :=
  pfx ++ "_" ++ toString timestampMs ++ "@example.com"

/-- Embedding of `SignupClient.default_payload` from the top-level
`api_objects.py`: its two clock readings `int(time.time())` and
`int(time.time() * 1000)` are the parameters `timestampS` and
`timestampMs`. -/
def default_payload (emailPfx : String) (timestampS timestampMs : Nat) :
    List (String × String) :=
  [("name", "Test User " ++ toString timestampS),
   ("email", generate_unique_email emailPfx timestampMs),
   ("password", "Password123!"),
   ("confirm_password", "Password123!")]

end ApiObjectsRoot

namespace ApiObjectsPkg

/-- Embedding of `SignupClient.generate_unique_email` from
`apiObjects/api_objects.py`. -/
def generate_unique_email (pfx : String) (timestampMs : Nat) : String :=
  pfx ++ "_" ++ toString timestampMs ++ "@example.com"

/-- Embedding of `SignupClient.default_payload` from
`apiObjects/api_objects.py`: unlike the top-level copy, the returned dict
has no `confirm_password` key. -/
def default_payload (emailPfx : String) (timestampS timestampMs : Nat) :
    List (String × String) :=
  [("name", "Test User " ++ toString timestampS),
   ("email", generate_unique_email emailPfx timestampMs),
   ("password", "Password123!")]

/-- Number of consecutive status-200 responses the resend loop sees,
starting at call index `i`, looking at most `r` calls ahead. -/
def count200 (statuses : Nat → Nat) : Nat → Nat → Nat
  | _, 0 => 0
  | i, r + 1 => if statuses i = 200 then count200 statuses (i + 1) r + 1 else 0

/-- Embedding of the `for attempt in range(1, max_attempts + 1)` loop of
`SignupClient.test_resend_rate_limit`: `i` is the index of the next
`resend_confirmation_code` call, `c` the successful-attempt counter.
Returns the final counter and the index of the next unissued call. -/
def probeLoop (statuses : Nat → Nat) : Nat → Nat → Nat → Nat × Nat
  | 0, i, c => (c, i)
  | r + 1, i, c =>
      if statuses i = 200 then probeLoop statuses r (i + 1) (c + 1) else (c, i + 1)

/-- Result dict of `test_resend_rate_limit`; the blocked response is
represented by its status. -/
structure ProbeResult where
  successful_attempts : Nat
  blocked_response : Nat
deriving DecidableEq

/-- Embedding of `SignupClient.test_resend_rate_limit`.  The HTTP client is
modelled by `statuses`, the status of each successive
`resend_confirmation_code` call.  Returns the result dict together with the
total number of calls issued. -/
def test_resend_rate_limit (statuses : Nat → Nat) (max_attempts : Nat) :
    ProbeResult × Nat :=
  let r := probeLoop statuses max_attempts 0 0
  let blocked := statuses r.2
  (⟨r.1, blocked⟩, r.2 + 1)

end ApiObjectsPkg

namespace Schemas

/-- JSON-like values carried in request and response bodies. -/
inductive JVal where
  | jNull : JVal
  | jBool : Bool → JVal
  | jInt : Int → JVal
  | jStr : String → JVal
  | jList : List JVal → JVal
  | jObj : List (String × JVal) → JVal

/-- Response body: a JSON object, as an insertion-ordered association list. -/
abbrev Body := List (String × JVal)

/-- Pydantic v1 `str` field coercion: accepts strings and numbers (and
booleans, which are `int` in Python); rejects `None`, lists and objects. -/
def isStr : JVal → Bool
  | JVal.jStr _ => true
  | JVal.jInt _ => true
  | JVal.jBool _ => true
  | _ => false

/-- Pydantic v1 `bool` field coercion: accepts booleans, the integers 0 and
1, and the usual truthy/falsy strings. -/
def isBool : JVal → Bool
  | JVal.jBool _ => true
  | JVal.jInt n => n == 0 || n == 1
  | JVal.jStr s =>
      ["true", "false", "t", "f", "y", "n", "yes", "no", "on", "off", "1", "0"].contains
        s.toLower
  | _ => false

/-- Pydantic v1 `int` field coercion: accepts integers and booleans, and
strings of digits with an optional sign. -/
def isInt : JVal → Bool
  | JVal.jInt _ => true
  | JVal.jBool _ => true
  | JVal.jStr s =>
      let t := if s.startsWith "-" || s.startsWith "+" then s.drop 1 else s
      !t.isEmpty && t.data.all Char.isDigit
  | _ => false

/-- Pydantic `dict` field: accepts JSON objects only. -/
def isDict : JVal → Bool
  | JVal.jObj _ => true
  | _ => false

/-- Optional-or-null string field of `ErrorDetailSchema` (`field`, `code`):
absent or `None` is fine, a present value must coerce to `str`. -/
def optNullableStr (flds : Body) (f : String) : Bool :=
  match dictGet flds f with
  | none => true
  | some JVal.jNull => true
  | some v => isStr v

/-- Embedding of `ErrorDetailSchema`: `message` is a required string,
`field` and `code` optional strings; extra fields are ignored (pydantic v1
default `Extra.ignore`). -/
def isErrorDetail : JVal → Bool
  | JVal.jObj flds =>
      (match dictGet flds "message" with
       | some m => isStr m
       | none => false)
      && optNullableStr flds "field" && optNullableStr flds "code"
  | _ => false

/-- Field of type `List[ErrorDetailSchema]`. -/
def isErrorDetailList : JVal → Bool
  | JVal.jList xs => xs.all isErrorDetail
  | _ => false

/-- Declared field of a pydantic schema: its name, whether it is required
(`...` default), whether `None` is allowed (an `Optional[...]` annotation),
and the coercion check for a present non-null value. -/
structure FieldSpec where
  name : String
  required : Bool
  allowNone : Bool
  check : JVal → Bool

/-- Validation of one declared field against a body, mirroring pydantic v1:
a missing required field and a `None` in a non-`Optional` field are errors,
otherwise the value must pass the field's coercion check. -/
def checkFieldSpec (body : Body) (fs : FieldSpec) : Option String :=
  match dictGet body fs.name with
  | none => if fs.required then some ("field required: " ++ fs.name) else none
  | some JVal.jNull =>
      if fs.allowNone then none else some ("none is not an allowed value: " ++ fs.name)
  | some v => if fs.check v then none else some ("type error: " ++ fs.name)

/-- Validation of a whole schema: every declared field must pass; fields of
the body that are not declared are ignored (`Config.extra = "allow"`).
Returns the first field error, `none` when the body is valid. -/
def checkSchema (specs : List FieldSpec) (body : Body) : Option String :=
  match specs with
  | [] => none
  | fs :: rest =>
      match checkFieldSpec body fs with
      | some e => some e
      | none => checkSchema rest body

/-- The fixed set of response schema kinds of `schemas.py`. -/
inductive SchemaKind where
  | signupSuccess : SchemaKind
  | signupError : SchemaKind
  | loginSuccess : SchemaKind
  | userProfile : SchemaKind

/-- Embedding of `SignupSuccessResponseSchema`: `message`, `error`, `code`
required; `data` an optional dict. -/
def signupSuccessSpecs : List FieldSpec :=
  [⟨"message", true, false, isStr⟩,
   ⟨"error", true, false, isBool⟩,
   ⟨"code", true, false, isStr⟩,
   ⟨"data", false, true, isDict⟩]

/-- Embedding of `SignupErrorResponseSchema`: every field optional. -/
def signupErrorSpecs : List FieldSpec :=
  [⟨"error", false, true, isStr⟩,
   ⟨"errors", false, true, isErrorDetailList⟩,
   ⟨"message", false, true, isStr⟩,
   ⟨"detail", false, true, isStr⟩,
   ⟨"status_code", false, true, isInt⟩]

/-- Embedding of `LoginSuccessResponseSchema`: `access_token` required,
`token_type` defaulted but non-`Optional`, the rest optional. -/
def loginSuccessSpecs : List FieldSpec :=
  [⟨"access_token", true, false, isStr⟩,
   ⟨"refresh_token", false, true, isStr⟩,
   ⟨"token_type", false, false, isStr⟩,
   ⟨"expires_in", false, true, isInt⟩,
   ⟨"user", false, true, isDict⟩]

/-- Embedding of `UserProfileSchema`: `id`, `name`, `email` required,
`is_active` defaulted but non-`Optional`, the rest optional; the `EmailStr`
syntax check is the abstract parameter `validEmail`. -/
def userProfileSpecs (validEmail : String → Bool) : List FieldSpec :=
  [⟨"id", true, false, isInt⟩,
   ⟨"name", true, false, isStr⟩,
   ⟨"email", true, false, fun v => match v with | JVal.jStr s => validEmail s | _ => false⟩,
   ⟨"phone", false, true, isStr⟩,
   ⟨"address", false, true, isStr⟩,
   ⟨"created_at", false, true, isStr⟩,
   ⟨"updated_at", false, true, isStr⟩,
   ⟨"is_active", false, false, isBool⟩]

/-- Declared fields of each schema kind, per `schemas.py`. -/
def schemaSpecs (validEmail : String → Bool) : SchemaKind → List FieldSpec
  | SchemaKind.signupSuccess => signupSuccessSpecs
  | SchemaKind.signupError => signupErrorSpecs
  | SchemaKind.loginSuccess => loginSuccessSpecs
  | SchemaKind.userProfile => userProfileSpecs validEmail

/-- Declared field names of each schema kind. -/
def declaredFields : SchemaKind → List String
  | SchemaKind.signupSuccess => ["message", "error", "code", "data"]
  | SchemaKind.signupError => ["error", "errors", "message", "detail", "status_code"]
  | SchemaKind.loginSuccess =>
      ["access_token", "refresh_token", "token_type", "expires_in", "user"]
  | SchemaKind.userProfile =>
      ["id", "name", "email", "phone", "address", "created_at", "updated_at", "is_active"]

/-- Embedding of `validate_response_schema`: constructing the model either
succeeds, giving `(True, None)`, or raises, giving `(False, str(e))`. -/
def validate_response_schema (validEmail : String → Bool) (response_data : Body)
    (schema : SchemaKind) : Bool × Option String :=
  match checkSchema (schemaSpecs validEmail schema) response_data with
  | none => (true, none)
  | some e => (false, some e)

/-- String form of the optional error, as interpolated by the f-string of
`assert_response_schema`. -/
def errStr : Option String → String
  | some e => e
  | none => "None"

/-- Embedding of `assert_response_schema`: passes when validation succeeds,
otherwise fails with `f"{error_message}: {error}"`. -/
def assert_response_schema (validEmail : String → Bool) (response_data : Body)
    (schema : SchemaKind) (error_message : String) : Except String Unit :=
  let r := validate_response_schema validEmail response_data schema
  if r.1 then Except.ok () else Except.error (error_message ++ ": " ++ errStr r.2)

/-- Signup request with all four declared fields present as strings. -/
structure SignupRequest where
  name : String
  email : String
  password : String
  confirm_password : String

/-- Field constraint and custom validator on `name` in
`SignupRequestSchema`: `min_length=3, max_length=80` and no digit
character. -/
def nameOk (n : String) : Bool :=
  decide (3 ≤ n.length) && decide (n.length ≤ 80) && !(n.data.any Char.isDigit)

/-- Field constraint on `password`: `min_length=8`. -/
def passwordOk (p : String) : Bool := decide (8 ≤ p.length)

/-- Field constraint and `passwords_match` validator on `confirm_password`:
`min_length=8`, and equality with `password` when `'password' in values`,
i.e. when `password` itself validated. -/
def confirmPasswordOk (p c : String) : Bool :=
  decide (8 ≤ c.length) && (if passwordOk p then c == p else true)

/-- Embedding of validation of `SignupRequestSchema`: all declared fields
must pass their constraints and validators; the `EmailStr` syntax check is
the abstract parameter `validEmail`. -/
def checkSignupRequest (validEmail : String → Bool) (r : SignupRequest) : Bool :=
  nameOk r.name && validEmail r.email && passwordOk r.password &&
    confirmPasswordOk r.password r.confirm_password

end Schemas

/-- C5: `create_signup_payload` called with no arguments returns a payload
in which `confirm_password` equals `password` and the email contains the
substring `@example.com`, with every omitted field filled by a
factory-generated value. -/
theorem create_signup_payload_defaults (genName genPassword : String) (tMs : Nat) :
    dictGet (UserDataFactory.create_signup_payload genName genPassword tMs
        none none none none []) "confirm_password"
      = dictGet (UserDataFactory.create_signup_payload genName genPassword tMs
        none none none none []) "password" ∧
    dictGet (UserDataFactory.create_signup_payload genName genPassword tMs
        none none none none []) "password" = some genPassword ∧
    dictGet (UserDataFactory.create_signup_payload genName genPassword tMs
        none none none none []) "name" = some genName ∧
    ∃ e a b, dictGet (UserDataFactory.create_signup_payload genName genPassword tMs
        none none none none []) "email" = some e ∧
      e.data = a ++ "@example.com".data ++ b := by
  refine ⟨rfl, rfl, rfl,
    UserDataFactory.generate_unique_email "test" "example.com" tMs,
    ("test" ++ "_" ++ toString tMs).data, [], rfl, ?_⟩
  simp only [UserDataFactory.generate_unique_email, strData_append,
    List.append_assoc, List.append_nil, List.singleton_append]

/-- C9: in `create_signup_payload` an explicitly supplied empty string is
treated like an omitted argument (the defaulting test is truthiness, not
presence): `confirm_password=""` yields a `confirm_password` equal to the
(possibly generated) password, and `password=""` yields a freshly generated
password. -/
theorem create_signup_payload_empty_string_defaults (genName genPassword : String)
    (tMs : Nat) (pw : Option String) :
    dictGet (UserDataFactory.create_signup_payload genName genPassword tMs
        none none pw (some "") []) "confirm_password"
      = dictGet (UserDataFactory.create_signup_payload genName genPassword tMs
        none none pw (some "") []) "password" ∧
    dictGet (UserDataFactory.create_signup_payload genName genPassword tMs
        none none (some "") none []) "password" = some genPassword :=
  ⟨rfl, rfl⟩

/-- C3: `create_invalid_payload` returns the freshly generated valid payload
with exactly the requested field changed — to the caller-supplied value when
one is given, otherwise to the canonical bad value per field, with the
empty string for an unknown field name — and every other field unchanged. -/
theorem create_invalid_payload_spec (genName genPassword : String) (tMs : Nat)
    (field : String) (invalid_value : Option String) :
    dictGet (UserDataFactory.create_invalid_payload genName genPassword tMs
        field invalid_value) field
      = some (match invalid_value with
              | some v => v
              | none =>
                  if field = "email" then "invalid-email-format"
                  else if field = "name" then "User@123!"
                  else if field = "password" then "weak"
                  else if field = "confirm_password" then "mismatch_password"
                  else "") ∧
    ∀ g, g ≠ field →
      dictGet (UserDataFactory.create_invalid_payload genName genPassword tMs
          field invalid_value) g
        = dictGet (UserDataFactory.create_signup_payload genName genPassword tMs
          none none none none []) g := by
  cases invalid_value with
  | none =>
      exact ⟨dictGet_dictSet_self _ _ _, fun g hg => dictGet_dictSet_ne _ _ _ _ hg⟩
  | some v =>
      exact ⟨dictGet_dictSet_self _ _ _, fun g hg => dictGet_dictSet_ne _ _ _ _ hg⟩

theorem create_invalid_payload_spec_witness :
    dictGet (UserDataFactory.create_invalid_payload "Jane Roe" "Password123!" 7
        "email" none) "name"
      = dictGet (UserDataFactory.create_signup_payload "Jane Roe" "Password123!" 7
        none none none none []) "name" :=
  (create_invalid_payload_spec "Jane Roe" "Password123!" 7 "email" none).2 "name"
    (by decide)

/-- C6: `validate_response_schema` against the signup-success schema returns
`(True, None)` for the body with message "ok", error false and code
"SUCCESS", and returns `(False, e)` with a non-null `e` for the body that
only has the key "wrong_field". -/
theorem validate_signup_success_roundtrip (validEmail : String → Bool) :
    Schemas.validate_response_schema validEmail
        [("message", Schemas.JVal.jStr "ok"), ("error", Schemas.JVal.jBool false),
         ("code", Schemas.JVal.jStr "SUCCESS")] Schemas.SchemaKind.signupSuccess
      = (true, none) ∧
    (Schemas.validate_response_schema validEmail
        [("wrong_field", Schemas.JVal.jStr "x")] Schemas.SchemaKind.signupSuccess).1
      = false ∧
    (Schemas.validate_response_schema validEmail
        [("wrong_field", Schemas.JVal.jStr "x")] Schemas.SchemaKind.signupSuccess).2.isSome
      = true :=
  ⟨rfl, rfl, rfl⟩

/-- C2: validation against `SignupRequestSchema` succeeds exactly when the
name has length in [3, 80] with no digit character, the email passes the
syntactic email check, both passwords have length at least 8, and — the
password itself having validated — `confirm_password` equals `password`. -/
theorem signup_request_schema_spec (validEmail : String → Bool)
    (r : Schemas.SignupRequest) :
    Schemas.checkSignupRequest validEmail r = true ↔
      (3 ≤ r.name.length ∧ r.name.length ≤ 80 ∧
       (∀ c ∈ r.name.data, c.isDigit = false) ∧
       validEmail r.email = true ∧
       8 ≤ r.password.length ∧ 8 ≤ r.confirm_password.length ∧
       (8 ≤ r.password.length → r.confirm_password = r.password)) := by
  by_cases hp : 8 ≤ r.password.length <;>
    simp [Schemas.checkSignupRequest, Schemas.nameOk, Schemas.passwordOk,
      Schemas.confirmPasswordOk, hp, List.all_eq_true, beq_iff_eq] <;>
    tauto

lemma dictGet_append_single_ne {α : Type} (l : List (String × α)) (k f : String)
    (v : α) (h : f ≠ k) : dictGet (l ++ [(k, v)]) f = dictGet l f := by
  have hkf : ¬ k = f := fun e => h e.symm
  induction l with
  | nil => simp [dictGet, hkf]
  | cons hd tl ih =>
      obtain ⟨k', v'⟩ := hd
      by_cases hk : k' = f <;> simp [dictGet, hk, ih]

lemma checkFieldSpec_append (body : Schemas.Body) (fs : Schemas.FieldSpec)
    (k : String) (v : Schemas.JVal) (h : fs.name ≠ k) :
    Schemas.checkFieldSpec (body ++ [(k, v)]) fs = Schemas.checkFieldSpec body fs := by
  unfold Schemas.checkFieldSpec
  rw [dictGet_append_single_ne _ _ _ _ h]

lemma checkSchema_append (specs : List Schemas.FieldSpec) (body : Schemas.Body)
    (k : String) (v : Schemas.JVal) (h : ∀ fs ∈ specs, fs.name ≠ k) :
    Schemas.checkSchema specs (body ++ [(k, v)]) = Schemas.checkSchema specs body := by
  induction specs with
  | nil => rfl
  | cons fs rest ih =>
      unfold Schemas.checkSchema
      rw [checkFieldSpec_append _ _ _ _ (h fs (by simp))]
      cases Schemas.checkFieldSpec body fs with
      | some e => rfl
      | none => exact ih fun fs' hf => h fs' (by simp [hf])

lemma schemaSpecs_names (validEmail : String → Bool) (k : Schemas.SchemaKind) :
    (Schemas.schemaSpecs validEmail k).map Schemas.FieldSpec.name
      = Schemas.declaredFields k := by
  cases k <;> rfl

/-- C7: schema validation is monotone under adding an extra field whose key
is not declared by the schema — a body that validates still validates after
the extension (extra fields are allowed and ignored). -/
theorem validate_extra_field_monotone (validEmail : String → Bool)
    (body : Schemas.Body) (kind : Schemas.SchemaKind) (key : String)
    (v : Schemas.JVal) (hkey : key ∉ Schemas.declaredFields kind)
    (hvalid : (Schemas.validate_response_schema validEmail body kind).1 = true) :
    (Schemas.validate_response_schema validEmail (body ++ [(key, v)]) kind).1 = true := by
  have hnames : ∀ fs ∈ Schemas.schemaSpecs validEmail kind, fs.name ≠ key := by
    intro fs hfs heq
    apply hkey
    rw [← schemaSpecs_names validEmail kind, ← heq]
    exact List.mem_map_of_mem _ hfs
  unfold Schemas.validate_response_schema at hvalid ⊢
  rw [checkSchema_append _ _ _ _ hnames]
  exact hvalid

theorem validate_extra_field_monotone_witness :
    (Schemas.validate_response_schema (fun _ => true)
        ([("message", Schemas.JVal.jStr "ok"), ("error", Schemas.JVal.jBool false),
          ("code", Schemas.JVal.jStr "SUCCESS")] ++ [("extra", Schemas.JVal.jStr "x")])
        Schemas.SchemaKind.signupSuccess).1 = true :=
  validate_extra_field_monotone (fun _ => true)
    [("message", Schemas.JVal.jStr "ok"), ("error", Schemas.JVal.jBool false),
     ("code", Schemas.JVal.jStr "SUCCESS")]
    Schemas.SchemaKind.signupSuccess "extra" (Schemas.JVal.jStr "x")
    (by decide) rfl

/-- C8: `assert_response_schema` passes exactly when
`validate_response_schema` reports the body valid; when it fails, the
failure message contains both the caller-supplied message and the
underlying validation error text. -/
theorem assert_response_schema_spec (validEmail : String → Bool)
    (body : Schemas.Body) (kind : Schemas.SchemaKind) (msgPre : String) :
    ((Schemas.validate_response_schema validEmail body kind).1 = true →
      Schemas.assert_response_schema validEmail body kind msgPre = Except.ok ()) ∧
    ((Schemas.validate_response_schema validEmail body kind).1 = false →
      ∃ e msg, (Schemas.validate_response_schema validEmail body kind).2 = some e ∧
        Schemas.assert_response_schema validEmail body kind msgPre = Except.error msg ∧
        (∃ a b, msg.data = a ++ msgPre.data ++ b) ∧
        (∃ a b, msg.data = a ++ e.data ++ b)) := by
  unfold Schemas.assert_response_schema Schemas.validate_response_schema
  cases h : Schemas.checkSchema (Schemas.schemaSpecs validEmail kind) body with
  | none => exact ⟨fun _ => rfl, fun hc => by simp at hc⟩
  | some e =>
      refine ⟨fun hc => by simp at hc, fun _ => ⟨e, msgPre ++ ": " ++ e, rfl, rfl,
        ⟨[], (": " ++ e).data, ?_⟩, ⟨(msgPre ++ ": ").data, [], ?_⟩⟩⟩
      · simp [Schemas.errStr, strData_append, List.append_assoc]
      · simp [Schemas.errStr, strData_append, List.append_assoc]

theorem assert_response_schema_spec_witness :
    ∃ e msg, (Schemas.validate_response_schema (fun _ => true)
        [("wrong_field", Schemas.JVal.jStr "x")] Schemas.SchemaKind.signupSuccess).2
        = some e ∧
      Schemas.assert_response_schema (fun _ => true)
        [("wrong_field", Schemas.JVal.jStr "x")] Schemas.SchemaKind.signupSuccess
        "Schema validation failed" = Except.error msg ∧
      (∃ a b, msg.data = a ++ "Schema validation failed".data ++ b) ∧
      (∃ a b, msg.data = a ++ e.data ++ b) :=
  (assert_response_schema_spec (fun _ => true)
    [("wrong_field", Schemas.JVal.jStr "x")] Schemas.SchemaKind.signupSuccess
    "Schema validation failed").2 rfl

/-- C10 (counterexample): at prefix "user" and clock readings 0 the two
`default_payload` implementations do not return the identical payload. -/
theorem default_payload_not_identical :
    ApiObjectsRoot.default_payload "user" 0 0 ≠ ApiObjectsPkg.default_payload "user" 0 0 := by
  intro h
  have := congrArg List.length h
  simp [ApiObjectsRoot.default_payload, ApiObjectsPkg.default_payload] at this

/-- C10 (amended): the two `SignupClient` copies agree on
`generate_unique_email`, and their `default_payload` dicts agree on the
name, email and password fields; but only the top-level copy carries a
`confirm_password` field (equal to the password), the `apiObjects` copy
omits it. -/
theorem signup_client_duplicates_agree (pfx emailPfx : String) (tS tMs : Nat) :
    ApiObjectsRoot.generate_unique_email pfx tMs
      = ApiObjectsPkg.generate_unique_email pfx tMs ∧
    dictGet (ApiObjectsRoot.default_payload emailPfx tS tMs) "name"
      = dictGet (ApiObjectsPkg.default_payload emailPfx tS tMs) "name" ∧
    dictGet (ApiObjectsRoot.default_payload emailPfx tS tMs) "email"
      = dictGet (ApiObjectsPkg.default_payload emailPfx tS tMs) "email" ∧
    dictGet (ApiObjectsRoot.default_payload emailPfx tS tMs) "password"
      = dictGet (ApiObjectsPkg.default_payload emailPfx tS tMs) "password" ∧
    dictGet (ApiObjectsRoot.default_payload emailPfx tS tMs) "confirm_password"
      = some "Password123!" ∧
    dictGet (ApiObjectsPkg.default_payload emailPfx tS tMs) "confirm_password" = none :=
  ⟨rfl, rfl, rfl, rfl, rfl, rfl⟩

lemma count200_le (statuses : Nat → Nat) : ∀ (r i : Nat),
    ApiObjectsPkg.count200 statuses i r ≤ r := by
  intro r
  induction r with
  | zero => intro i; simp [ApiObjectsPkg.count200]
  | succ r ih =>
      intro i
      unfold ApiObjectsPkg.count200
      by_cases h : statuses i = 200 <;> simp [h]
      exact ih (i + 1)

lemma probeLoop_eq (statuses : Nat → Nat) : ∀ (r i c : Nat),
    ApiObjectsPkg.probeLoop statuses r i c
      = (c + ApiObjectsPkg.count200 statuses i r,
         i + min r (ApiObjectsPkg.count200 statuses i r + 1)) := by
  intro r
  induction r with
  | zero => intro i c; simp [ApiObjectsPkg.probeLoop, ApiObjectsPkg.count200]
  | succ r ih =>
      intro i c
      unfold ApiObjectsPkg.probeLoop ApiObjectsPkg.count200
      by_cases h : statuses i = 200
      · rw [if_pos h, if_pos h, ih (i + 1) (c + 1)]
        refine Prod.ext ?_ ?_ <;> simp <;> omega
      · rw [if_neg h, if_neg h]
        refine Prod.ext ?_ ?_ <;> simp <;> omega

lemma count200_eq_takeWhile (statuses : Nat → Nat) : ∀ (r i : Nat),
    ApiObjectsPkg.count200 statuses i r
      = (((List.range r).map (fun j => statuses (i + j))).takeWhile
          (fun s => s == 200)).length := by
  intro r
  induction r with
  | zero => intro i; simp [ApiObjectsPkg.count200]
  | succ r ih =>
      intro i
      have hfun : ((fun j => statuses (i + j)) ∘ Nat.succ)
          = fun j => statuses ((i + 1) + j) :=
        funext fun j => congrArg statuses (by omega)
      rw [List.range_succ_eq_map]
      unfold ApiObjectsPkg.count200
      by_cases h : statuses i = 200
      · simp [List.map_map, hfun, List.takeWhile_cons, h, ih (i + 1)]
      · simp [List.map_map, hfun, List.takeWhile_cons, h]

/-- C1: for `max_attempts ≥ 1` and any stream of response statuses,
`test_resend_rate_limit` counts as `successful_attempts` the longest prefix
of consecutive status-200 responses among the first `max_attempts` calls
(stopping at the first non-200 status), then issues exactly one further
unconditional call — the loop makes `min max_attempts (successful + 1)`
calls and the total is one more — whose response is returned as
`blocked_response` and is not counted. -/
theorem resend_rate_limit_spec (statuses : Nat → Nat) (max_attempts : Nat)
    (hmax : 1 ≤ max_attempts) :
    (ApiObjectsPkg.test_resend_rate_limit statuses max_attempts).1.successful_attempts
        = (((List.range max_attempts).map statuses).takeWhile (fun s => s == 200)).length ∧
    (ApiObjectsPkg.test_resend_rate_limit statuses max_attempts).1.successful_attempts
        ≤ max_attempts ∧
    (ApiObjectsPkg.test_resend_rate_limit statuses max_attempts).2
        = min max_attempts
            ((ApiObjectsPkg.test_resend_rate_limit
                statuses max_attempts).1.successful_attempts + 1) + 1 ∧
    (ApiObjectsPkg.test_resend_rate_limit statuses max_attempts).1.blocked_response
        = statuses ((ApiObjectsPkg.test_resend_rate_limit statuses max_attempts).2 - 1) := by
  have hfun : (fun j => statuses (0 + j)) = statuses :=
    funext fun j => congrArg statuses (Nat.zero_add j)
  have htw := count200_eq_takeWhile statuses max_attempts 0
  rw [hfun] at htw
  unfold ApiObjectsPkg.test_resend_rate_limit
  rw [probeLoop_eq statuses max_attempts 0 0]
  refine ⟨by simpa using htw, ?_, by simp, by simp⟩
  simpa using count200_le statuses max_attempts 0

theorem resend_rate_limit_spec_witness :
    1 ≤ 5 ∧
    (ApiObjectsPkg.test_resend_rate_limit
        (fun i => if i < 3 then 200 else 429) 5).1.successful_attempts
      = (((List.range 5).map (fun i => if i < 3 then 200 else 429)).takeWhile
          (fun s => s == 200)).length :=
  ⟨by decide,
   (resend_rate_limit_spec (fun i => if i < 3 then 200 else 429) 5 (by decide)).1⟩

lemma mem_asciiUppercase_isUpper :
    ∀ c ∈ UserDataFactory.asciiUppercase, c.isUpper = true := by decide

lemma mem_asciiLowercase_isLower :
    ∀ c ∈ UserDataFactory.asciiLowercase, c.isLower = true := by decide

lemma mem_asciiDigits_isDigit :
    ∀ c ∈ UserDataFactory.asciiDigits, c.isDigit = true := by decide

/-- C4: for any target length at least 4 and any draws of the random
source, `random_password` returns a string of exactly that length that
contains at least one uppercase letter, one lowercase letter, one digit,
and — when special characters are enabled — one symbol from the fixed set
`!@#$%^&*`. -/
theorem random_password_spec (len : Nat) (include_special : Bool)
    (u lo d s : Char) (fill : Nat → Char) (shuffle : List Char → List Char)
    (hshuffle : ∀ xs, List.Perm (shuffle xs) xs)
    (hu : u ∈ UserDataFactory.asciiUppercase)
    (hlo : lo ∈ UserDataFactory.asciiLowercase)
    (hd : d ∈ UserDataFactory.asciiDigits)
    (hs : s ∈ UserDataFactory.passwordSpecials)
    (hlen : 4 ≤ len) :
    (UserDataFactory.random_password len include_special u lo d s fill shuffle).length
      = len ∧
    (∃ c ∈ (UserDataFactory.random_password len include_special u lo d s fill
        shuffle).data, c.isUpper = true) ∧
    (∃ c ∈ (UserDataFactory.random_password len include_special u lo d s fill
        shuffle).data, c.isLower = true) ∧
    (∃ c ∈ (UserDataFactory.random_password len include_special u lo d s fill
        shuffle).data, c.isDigit = true) ∧
    (include_special = true →
      ∃ c ∈ (UserDataFactory.random_password len include_special u lo d s fill
        shuffle).data, c ∈ UserDataFactory.passwordSpecials) := by
  unfold UserDataFactory.random_password
  have hperm := hshuffle ([u, lo, d] ++ (if include_special then [s] else []) ++
    (List.range (len - ([u, lo, d] ++
      (if include_special then [s] else [])).length)).map fill)
  refine ⟨?_, ⟨u, ?_, mem_asciiUppercase_isUpper u hu⟩,
    ⟨lo, ?_, mem_asciiLowercase_isLower lo hlo⟩,
    ⟨d, ?_, mem_asciiDigits_isDigit d hd⟩, fun hsp => ⟨s, ?_, hs⟩⟩
  · show (shuffle _).length = len
    rw [hperm.length_eq]
    cases include_special <;> simp <;> omega
  · exact hperm.mem_iff.2 (by simp)
  · exact hperm.mem_iff.2 (by simp)
  · exact hperm.mem_iff.2 (by simp)
  · subst hsp
    exact hperm.mem_iff.2 (by simp)

theorem random_password_spec_witness :
    4 ≤ 12 ∧
    (UserDataFactory.random_password 12 true 'A' 'a' '0' '!'
        (fun _ => 'x') id).length = 12 :=
  ⟨by decide,
   (random_password_spec 12 true 'A' 'a' '0' '!' (fun _ => 'x') id
      (fun xs => List.Perm.refl xs) (by decide) (by decide) (by decide)
      (by decide) (by decide)).1⟩

end SignupApi
